import Mathlib

/-!
Shallow embedding of the M5Tab5 user-demo HAL sources:
  * `platforms/tab5/main/hal/hal_esp32.cpp` (class `HalEsp32`), together with the
    member declarations and initializers of `hal_esp32.h`;
  * `platforms/tab5/components/esp_cam_sensor/sensors/gc2145/Kconfig.gc2145`.

Hardware/OS effects (`bsp_sdcard_init`, `opendir`/`readdir`, `i2c_master_probe`,
`gpio_set_drive_capability`, the touch controller) are modelled as explicit inputs:
a Boolean success flag, an optional directory listing, or a probe oracle.  The
control flow of each embedded function mirrors the C++ source line by line, and
side effects that matter to the claims (log calls, mount/unmount, open/close) are
recorded in an explicit event trace.
-/

namespace Tab5Hal

/-- A POSIX `struct dirent`, restricted to the two fields `scanSdCard` reads:
`d_name` and `d_type`. -/
structure Dirent where
  d_name : String
  d_type : Nat
  deriving DecidableEq, Repr

/-- The `DT_DIR` constant of `<dirent.h>`. -/
def DT_DIR : Nat := 4

/-- Embeds `hal::HalBase::FileEntry_t`: a name plus a directory flag. -/
structure FileEntry where
  name : String
  isDir : Bool
  deriving DecidableEq, Repr

/-- Observable side effects of `HalEsp32::scanSdCard`, in program order:
`bsp_sdcard_init` (with its success), `mclog::error` calls, `opendir` (with its
success), `closedir`, and `bsp_sdcard_deinit`. -/
inductive SdEvent where
  | sdInit (ok : Bool)
  | logError (msg : String)
  | openDir (ok : Bool)
  | closeDir
  | sdDeinit
  deriving DecidableEq, Repr

/-- The `while ((entry = readdir(dir)) != nullptr)` loop body of
`HalEsp32::scanSdCard`: skip `.` and `..`, otherwise push an entry whose `name`
is `d_name` and whose `isDir` is `d_type == DT_DIR`. -/
def scanEntries : List Dirent → List FileEntry
  | [] => []
  | e :: rest =>
    if e.d_name = "." ∨ e.d_name = ".." then
      scanEntries rest
    else
      { name := e.d_name, isDir := e.d_type == DT_DIR } :: scanEntries rest

/-- Result of one `scanSdCard` call: the returned vector, the event trace emitted
before the `return`, and the value of `_sd_card_mounted` at the `return`. -/
structure ScanResult where
  entries : List FileEntry
  events : List SdEvent
  mounted : Bool
  deriving DecidableEq, Repr

/-- Embeds `HalEsp32::scanSdCard(dirPath)`.  `mountOk` is `bsp_sdcard_init("/sd", 25) == ESP_OK`;
`dir` is the `opendir` outcome (`none` for `nullptr`, otherwise the sequence of
entries `readdir` will yield); `mountedFlag` is `_sd_card_mounted` on entry. -/
def scanSdCard (mountOk : Bool) (dir : Option (List Dirent)) (mountedFlag : Bool) :
    ScanResult :=
  if mountOk then
    -- `_sd_card_mounted = true;` here, reset to `false` on both following paths
    match dir with
    | none =>
      { entries := []
        events := [SdEvent.sdInit true, SdEvent.openDir false,
                   SdEvent.logError "failed to open directory", SdEvent.sdDeinit]
        mounted := false }
    | some des =>
      { entries := scanEntries des
        events := [SdEvent.sdInit true, SdEvent.openDir true, SdEvent.closeDir,
                   SdEvent.sdDeinit]
        mounted := false }
  else
    { entries := []
      events := [SdEvent.sdInit false, SdEvent.logError "failed to mount sd card"]
      mounted := mountedFlag }

/-- The function `scanEntries` filters out `.` and `..` and maps each remaining `dirent` to its
`FileEntry_t`, keeping order. -/
theorem scanEntries_eq_filter_map (des : List Dirent) :
    scanEntries des =
      (des.filter (fun e => !(decide (e.d_name = "." ∨ e.d_name = "..")))).map
        (fun e => { name := e.d_name, isDir := e.d_type == DT_DIR }) := by
  induction des with
  | nil => rfl
  | cons e rest ih =>
    by_cases h1 : e.d_name = "."
    · simp [scanEntries, List.filter_cons, h1, ih]
    · by_cases h2 : e.d_name = ".."
      · simp [scanEntries, List.filter_cons, h1, h2, ih]
      · simp [scanEntries, List.filter_cons, h1, h2, ih]

/-- C1: if mounting fails or `opendir` returns null, `scanSdCard` logs an error
and returns an empty list of file entries. -/
theorem scanSdCard_failure_empty (mountOk : Bool) (dir : Option (List Dirent))
    (mountedFlag : Bool) (h : mountOk = false ∨ dir = none) :
    (scanSdCard mountOk dir mountedFlag).entries = [] ∧
      ∃ msg, SdEvent.logError msg ∈ (scanSdCard mountOk dir mountedFlag).events := by
  rcases h with h | h
  · subst h
    exact ⟨rfl, "failed to mount sd card", by simp [scanSdCard]⟩
  · subst h
    cases mountOk with
    | false => exact ⟨rfl, "failed to mount sd card", by simp [scanSdCard]⟩
    | true => exact ⟨rfl, "failed to open directory", by simp [scanSdCard]⟩

/-- Witness for C1 at a concrete input: mount failure on an empty listing. -/
theorem scanSdCard_failure_empty_witness :
    (scanSdCard false (some []) false).entries = [] ∧
      ∃ msg, SdEvent.logError msg ∈ (scanSdCard false (some []) false).events :=
  scanSdCard_failure_empty false (some []) false (Or.inl rfl)

/-- C2: when the mount and `opendir` both succeed, `scanSdCard` returns exactly
one `FileEntry_t` per `readdir` entry other than `.` and `..`, in `readdir`
order, with `name = d_name` and `isDir` true iff `d_type = DT_DIR`. -/
theorem scanSdCard_success_entries (des : List Dirent) (mountedFlag : Bool) :
    (scanSdCard true (some des) mountedFlag).entries =
      (des.filter (fun e => !(decide (e.d_name = "." ∨ e.d_name = "..")))).map
        (fun e => { name := e.d_name, isDir := e.d_type == DT_DIR }) ∧
    ∀ e : Dirent,
      (({ name := e.d_name, isDir := e.d_type == DT_DIR } : FileEntry).isDir = true ↔
        e.d_type = DT_DIR) := by
  refine ⟨?_, ?_⟩
  · simpa [scanSdCard] using scanEntries_eq_filter_map des
  · intro e
    simp

/-- Witness for C2 at a concrete input: a four-entry listing containing `.` and
`..` yields exactly the other two entries, in order, with their `d_type`
translated. -/
theorem scanSdCard_success_entries_witness :
    (scanSdCard true
        (some [⟨".", 4⟩, ⟨"a.txt", 8⟩, ⟨"photos", 4⟩, ⟨"..", 4⟩]) false).entries =
      [⟨"a.txt", false⟩, ⟨"photos", true⟩] := by
  rw [(scanSdCard_success_entries
    [⟨".", 4⟩, ⟨"a.txt", 8⟩, ⟨"photos", 4⟩, ⟨"..", 4⟩] false).1]
  decide

/-- C5: `scanSdCard` never returns holding an open resource: on every return
path, a successful `opendir` is followed by `closedir` in the pre-return trace,
and a successful `bsp_sdcard_init` is followed by `bsp_sdcard_deinit`. -/
theorem scanSdCard_resource_safety (mountOk : Bool) (dir : Option (List Dirent))
    (mountedFlag : Bool) :
    (SdEvent.openDir true ∈ (scanSdCard mountOk dir mountedFlag).events →
      SdEvent.closeDir ∈ (scanSdCard mountOk dir mountedFlag).events) ∧
    (SdEvent.sdInit true ∈ (scanSdCard mountOk dir mountedFlag).events →
      SdEvent.sdDeinit ∈ (scanSdCard mountOk dir mountedFlag).events) := by
  cases mountOk with
  | false =>
    exact ⟨fun h => by simp [scanSdCard] at h, fun h => by simp [scanSdCard] at h⟩
  | true => cases dir with
    | none => exact ⟨fun h => by simp [scanSdCard] at h, fun _ => by simp [scanSdCard]⟩
    | some des => exact ⟨fun _ => by simp [scanSdCard], fun _ => by simp [scanSdCard]⟩

/-- Witness for C5 at a concrete input: a successful scan of a one-entry
directory both closes the directory and unmounts the card. -/
theorem scanSdCard_resource_safety_witness :
    SdEvent.closeDir ∈ (scanSdCard true (some [⟨"a.txt", 8⟩]) false).events ∧
    SdEvent.sdDeinit ∈ (scanSdCard true (some [⟨"a.txt", 8⟩]) false).events :=
  ⟨(scanSdCard_resource_safety true (some [⟨"a.txt", 8⟩]) false).1 (by decide),
   (scanSdCard_resource_safety true (some [⟨"a.txt", 8⟩]) false).2 (by decide)⟩

/-! ### The `HalEsp32` object state

The mutable members of `HalEsp32` that the embedded operations read or write
(`hal_esp32.h`): `_current_lcd_brightness` (a `uint8_t`, initializer `100`) and
`_sd_card_mounted` (a `bool`, initializer `false`). -/

/-- The mutable state of a `HalEsp32` object, restricted to the members the
operations embedded here touch. -/
structure HalState where
  sd_card_mounted : Bool
  current_lcd_brightness : Nat
  deriving DecidableEq, Repr

/-- The member initializers of `hal_esp32.h`:
`_sd_card_mounted = false`, `_current_lcd_brightness = 100`. -/
def initState : HalState :=
  { sd_card_mounted := false, current_lcd_brightness := 100 }

/-- Embeds `std::clamp(v, lo, hi)`. -/
def stdClamp (v lo hi : Int) : Int :=
  if v < lo then lo else if hi < v then hi else v

/-- Embeds `HalEsp32::setDisplayBrightness(brightness)`: stores
`std::clamp((int)brightness, 0, 100)` into the `uint8_t` member
`_current_lcd_brightness` (the store is reduction mod 2^8) and forwards it to
`bsp_display_brightness_set`. -/
def setDisplayBrightness (st : HalState) (brightness : Nat) : HalState :=
  { st with current_lcd_brightness := (stdClamp (brightness : Int) 0 100).toNat % 256 }

/-- Embeds `HalEsp32::getDisplayBrightness()`. -/
def getDisplayBrightness (st : HalState) : Nat :=
  st.current_lcd_brightness

/-- Embeds `HalEsp32::isSdCardMounted()`: the body is `return true;` — the read of
`_sd_card_mounted` is commented out in the source. -/
def isSdCardMounted (_st : HalState) : Bool :=
  true

/-- The public operations of `HalEsp32` embedded here, with the environment
responses they consume as arguments.  Operations that only call into the BSP
and touch no member of `HalState` are grouped per source function. -/
inductive HalOp where
  | scanSdCardOp (mountOk : Bool) (dir : Option (List Dirent))
  | isSdCardMountedOp
  | setDisplayBrightnessOp (brightness : Nat)
  | getDisplayBrightnessOp
  | i2cScanOp (isInternal : Bool)
  | lvglLockOp
  | lvglUnlockOp
  | clearRtcIrqOp
  | setRtcTimeOp
  | usbCDetectOp
  | headPhoneDetectOp
  | initPortAI2cOp
  | deinitPortAI2cOp
  | gpioInitOutputOp (pin : Nat)
  | gpioSetLevelOp (pin : Nat) (level : Bool)
  | gpioResetOp (pin : Nat)
  | delayOp (ms : Nat)
  | millisOp
  | getCpuTempOp
  deriving DecidableEq, Repr

/-- Effect of one public operation on the `HalEsp32` members.  Only
`scanSdCard` writes `_sd_card_mounted` and only `setDisplayBrightness` writes
`_current_lcd_brightness`; every other embedded operation reads state or calls
straight into the BSP. -/
def halStep (st : HalState) (op : HalOp) : HalState :=
  match op with
  | HalOp.scanSdCardOp mountOk dir =>
    { st with sd_card_mounted := (scanSdCard mountOk dir st.sd_card_mounted).mounted }
  | HalOp.setDisplayBrightnessOp brightness => setDisplayBrightness st brightness
  | _ => st

/-- C4 counterexample: in the initial state `_sd_card_mounted` is `false`, yet
`isSdCardMounted` returns `true`, so it does not return the flag. -/
theorem isSdCardMounted_not_flag :
    ¬ (isSdCardMounted initState = initState.sd_card_mounted) := by
  decide

/-- C4 (amended): `isSdCardMounted` ignores the `_sd_card_mounted` flag and
returns `true` in every program state. -/
theorem isSdCardMounted_always_true (st : HalState) :
    isSdCardMounted st = true :=
  rfl

/-- C6: `_sd_card_mounted` is `false` at every public-operation boundary: it is
initialized to `false`; every return path of `scanSdCard` that follows a
successful mount has reset it to `false`; no operation other than `scanSdCard`
writes it; and after any sequence of public operations from the initial state it
is still `false`. -/
theorem sd_card_mounted_invariant :
    initState.sd_card_mounted = false ∧
    (∀ (dir : Option (List Dirent)) (mountedFlag : Bool),
      (scanSdCard true dir mountedFlag).mounted = false) ∧
    (∀ (st : HalState) (op : HalOp),
      (∀ (mountOk : Bool) (dir : Option (List Dirent)),
        op ≠ HalOp.scanSdCardOp mountOk dir) →
      (halStep st op).sd_card_mounted = st.sd_card_mounted) ∧
    (∀ ops : List HalOp, (ops.foldl halStep initState).sd_card_mounted = false) := by
  refine ⟨rfl, ?_, ?_, ?_⟩
  · intro dir mountedFlag
    cases dir <;> rfl
  · intro st op hop
    cases op with
    | scanSdCardOp mountOk dir => exact absurd rfl (hop mountOk dir)
    | setDisplayBrightnessOp brightness => rfl
    | _ => rfl
  · have step_false : ∀ (st : HalState) (op : HalOp),
        st.sd_card_mounted = false → (halStep st op).sd_card_mounted = false := by
      intro st op hst
      cases op with
      | scanSdCardOp mountOk dir =>
        cases mountOk with
        | true => cases dir <;> rfl
        | false => simpa [halStep, scanSdCard] using hst
      | setDisplayBrightnessOp brightness => simpa [halStep, setDisplayBrightness] using hst
      | _ => simpa [halStep] using hst
    have main : ∀ (ops : List HalOp) (st : HalState), st.sd_card_mounted = false →
        (ops.foldl halStep st).sd_card_mounted = false := by
      intro ops
      induction ops with
      | nil => intro st hst; simpa using hst
      | cons op rest ih =>
        intro st hst
        exact ih (halStep st op) (step_false st op hst)
    intro ops
    exact main ops initState rfl

/-- Witness for C6 at concrete inputs: a successful scan resets the flag, a
non-scan operation preserves it, and a concrete operation sequence ends with
the flag `false`. -/
theorem sd_card_mounted_invariant_witness :
    (scanSdCard true (some []) false).mounted = false ∧
    (halStep initState HalOp.lvglLockOp).sd_card_mounted =
      initState.sd_card_mounted ∧
    (([HalOp.scanSdCardOp true (some []), HalOp.isSdCardMountedOp].foldl halStep
        initState).sd_card_mounted = false) :=
  ⟨sd_card_mounted_invariant.2.1 (some []) false,
   sd_card_mounted_invariant.2.2.1 initState HalOp.lvglLockOp
     (fun _ _ h => HalOp.noConfusion h),
   sd_card_mounted_invariant.2.2.2 [HalOp.scanSdCardOp true (some []),
     HalOp.isSdCardMountedOp]⟩

/-- C10: for every 8-bit brightness argument `b`, `getDisplayBrightness` after
`setDisplayBrightness(b)` returns `min b 100`; `_current_lcd_brightness` is
initialized to `100`, only `setDisplayBrightness` writes it, and after any
sequence of public operations it lies in `0..100`. -/
theorem display_brightness_spec :
    (∀ (st : HalState) (b : Nat), b < 256 →
      getDisplayBrightness (setDisplayBrightness st b) = min b 100) ∧
    initState.current_lcd_brightness = 100 ∧
    (∀ (st : HalState) (op : HalOp),
      (∀ b : Nat, op ≠ HalOp.setDisplayBrightnessOp b) →
      (halStep st op).current_lcd_brightness = st.current_lcd_brightness) ∧
    (∀ ops : List HalOp,
      (ops.foldl halStep initState).current_lcd_brightness ≤ 100) := by
  refine ⟨?_, rfl, ?_, ?_⟩
  · intro st b _hb
    simp only [getDisplayBrightness, setDisplayBrightness, stdClamp]
    split_ifs <;> omega
  · intro st op hop
    cases op with
    | setDisplayBrightnessOp b => exact absurd rfl (hop b)
    | scanSdCardOp mountOk dir => rfl
    | _ => rfl
  · have step_le : ∀ (st : HalState) (op : HalOp),
        st.current_lcd_brightness ≤ 100 →
        (halStep st op).current_lcd_brightness ≤ 100 := by
      intro st op hst
      cases op with
      | setDisplayBrightnessOp b =>
        simp only [halStep, setDisplayBrightness, stdClamp]
        split_ifs <;> omega
      | scanSdCardOp mountOk dir => simpa [halStep] using hst
      | _ => simpa [halStep] using hst
    have main : ∀ (ops : List HalOp) (st : HalState),
        st.current_lcd_brightness ≤ 100 →
        (ops.foldl halStep st).current_lcd_brightness ≤ 100 := by
      intro ops
      induction ops with
      | nil => intro st hst; simpa using hst
      | cons op rest ih =>
        intro st hst
        exact ih (halStep st op) (step_le st op hst)
    intro ops
    exact main ops initState (by simp [initState])

/-- Witness for C10 at concrete inputs: brightness 250 is clamped to 100,
brightness 42 is stored exactly, and a non-setter operation preserves the
stored value. -/
theorem display_brightness_spec_witness :
    getDisplayBrightness (setDisplayBrightness initState 250) = 100 ∧
    getDisplayBrightness (setDisplayBrightness initState 42) = 42 ∧
    (halStep initState HalOp.lvglLockOp).current_lcd_brightness =
      initState.current_lcd_brightness :=
  ⟨display_brightness_spec.1 initState 250 (by decide),
   display_brightness_spec.1 initState 42 (by decide),
   display_brightness_spec.2.2.1 initState HalOp.lvglLockOp
     (fun _ h => HalOp.noConfusion h)⟩

/-! ### `HalEsp32::i2cScan`

The bus handle is chosen from `isInternal`; the hardware is a probe oracle
mapping a bus and a 7-bit address to the outcome of `i2c_master_probe`
(`true` for `ESP_OK`).  Besides the returned address vector the embedding also
accumulates the list of addresses actually passed to `i2c_master_probe`. -/

/-- The two I2C buses: `bsp_i2c_get_handle()` and `bsp_ext_i2c_get_handle()`. -/
inductive I2cBus where
  | internal
  | external
  deriving DecidableEq, Repr

/-- The body of the inner `for (int j = 0; j < 16; j++)` loop of `i2cScan` at
`address`: skip without probing when `address >= 0x78`, otherwise probe and push
the address on `ESP_OK`.  The accumulator is `(addrs, probed)`. -/
def i2cScanStep (probe : Nat → Bool) (acc : List Nat × List Nat) (address : Nat) :
    List Nat × List Nat :=
  if 0x78 ≤ address then acc
  else ((if probe address then acc.1 ++ [address] else acc.1), acc.2 ++ [address])

/-- The values taken by `i` in `for (int i = 16; i < 128; i += 16)`. -/
def i2cOuterIndices : List Nat := [16, 32, 48, 64, 80, 96, 112]

/-- Embeds `HalEsp32::i2cScan(isInternal)`: nested loops over `i` and `j` probing
`address = i + j`, returning `(addrs, probed)`. -/
def i2cScan (isInternal : Bool) (probe : I2cBus → Nat → Bool) :
    List Nat × List Nat :=
  let bus := if isInternal then I2cBus.internal else I2cBus.external
  i2cOuterIndices.foldl
    (fun acc i =>
      (List.range 16).foldl (fun acc2 j => i2cScanStep (probe bus) acc2 (i + j)) acc)
    ([], [])

/-- Folding `i2cScanStep` over any address list appends, to the accumulator, the
probed sub-128...0x78-filtered addresses and the `ESP_OK` ones among them. -/
theorem foldl_i2cScanStep (probe : Nat → Bool) (l : List Nat)
    (acc : List Nat × List Nat) :
    l.foldl (i2cScanStep probe) acc =
      (acc.1 ++ (l.filter (fun a => decide (a < 0x78) && probe a)),
       acc.2 ++ l.filter (fun a => decide (a < 0x78))) := by
  induction l generalizing acc with
  | nil => simp
  | cons a rest ih =>
    rw [List.foldl_cons, ih]
    by_cases ha : 0x78 ≤ a
    · have ha2 : ¬ a < 0x78 := by omega
      simp [i2cScanStep, ha, ha2, List.filter_cons]
    · have ha2 : a < 0x78 := by omega
      by_cases hp : probe a
      · simp [i2cScanStep, ha, ha2, hp, List.filter_cons]
      · simp [i2cScanStep, ha, ha2, hp, List.filter_cons]

/-- The inner `j` loop at outer index `i` is a fold of `i2cScanStep` over the
addresses `i, i+1, ..., i+15`. -/
theorem i2c_inner_loop_eq (probe : Nat → Bool) (i : Nat) (acc : List Nat × List Nat) :
    (List.range 16).foldl (fun acc2 j => i2cScanStep probe acc2 (i + j)) acc =
      (List.range' i 16).foldl (i2cScanStep probe) acc := by
  rw [List.range'_eq_map_range, List.foldl_map]

/-- C3: for either bus selection, `i2cScan` returns exactly the addresses in
`0x10..0x77` whose probe reports `ESP_OK`, in ascending order; exactly the
addresses `0x10..0x77` are ever probed (so addresses below `0x10` or at or
above `0x78` never appear); and when no device responds the result is empty. -/
theorem i2cScan_spec (isInternal : Bool) (probe : I2cBus → Nat → Bool) :
    (i2cScan isInternal probe).1 =
      (List.range' 16 104).filter
        (probe (if isInternal then I2cBus.internal else I2cBus.external)) ∧
    (i2cScan isInternal probe).2 = List.range' 16 104 ∧
    List.Sorted (· < ·) (i2cScan isInternal probe).1 ∧
    (i2cScan isInternal (fun _ _ => false)).1 = [] := by
  have key : ∀ p : Nat → Bool,
      i2cOuterIndices.foldl
        (fun acc i =>
          (List.range 16).foldl (fun acc2 j => i2cScanStep p acc2 (i + j)) acc)
        ([], []) =
        ((List.range' 16 104).filter p, List.range' 16 104) := by
    intro p
    simp only [i2cOuterIndices, List.foldl_cons, List.foldl_nil, i2c_inner_loop_eq]
    rw [← List.foldl_append, ← List.foldl_append, ← List.foldl_append,
      ← List.foldl_append, ← List.foldl_append, ← List.foldl_append]
    have hconcat :
        List.range' 16 16 ++ (List.range' 32 16 ++ (List.range' 48 16 ++
          (List.range' 64 16 ++ (List.range' 80 16 ++ (List.range' 96 16 ++
          List.range' 112 16))))) = List.range' 16 112 := by decide
    rw [hconcat, foldl_i2cScanStep]
    have hsplit : List.range' 16 112 = List.range' 16 104 ++ List.range' 120 8 := by
      decide
    have hhi : (List.range' 120 8).filter (fun a => decide (a < 0x78) && p a) = [] := by
      rw [List.filter_eq_nil_iff]
      intro a ha
      have : 120 ≤ a := (List.mem_range'_1.mp ha).1
      simp [show ¬ a < 0x78 by omega]
    have hlo : (List.range' 16 104).filter (fun a => decide (a < 0x78) && p a) =
        (List.range' 16 104).filter p := by
      refine List.filter_congr ?_
      intro a ha
      have : a < 120 := by
        have := (List.mem_range'_1.mp ha).2
        omega
      simp [show a < 0x78 by omega]
    have h2 : (List.range' 16 112).filter (fun a => decide (a < 0x78)) =
        List.range' 16 104 := by decide
    rw [hsplit, List.filter_append, hhi, List.append_nil, hlo, ← hsplit, h2]
    simp
  have sorted_range : List.Sorted (· < ·) (List.range' 16 104) := by
    simpa [List.Sorted] using List.pairwise_lt_range' 16 104
  refine ⟨?_, ?_, ?_, ?_⟩
  · rw [i2cScan, key]
  · rw [i2cScan, key]
  · rw [i2cScan, key]
    exact List.Pairwise.sublist (List.filter_sublist _) sorted_range
  · rw [i2cScan, key]
    simp

/-- Witness for C3 at a concrete input: on the internal bus, when devices at
`0x32` and `0x41` respond, exactly those addresses come back, in ascending
order. -/
theorem i2cScan_spec_witness :
    (i2cScan true (fun _ a => a == 0x32 || a == 0x41)).1 = [0x32, 0x41] := by
  rw [(i2cScan_spec true (fun _ a => a == 0x32 || a == 0x41)).1]
  decide

/-! ### `HalEsp32::set_gpio_output_capability` and the `init` call sequence -/

/-- The fixed `_driver_gpios[]` array (GPIO numbers, in declaration order). -/
def _driver_gpios : List Nat :=
  [0, 1, 8, 9, 10, 11, 12, 13, 15, 22, 23, 26, 27, 28, 29, 30, 31, 32,
   39, 40, 41, 42, 43, 44]

/-- The constant `GPIO_DRIVE_CAP_0`, the weakest drive capability (enumerator value 0). -/
def GPIO_DRIVE_CAP_0 : Nat := 0

/-- One attempt of the loop body: the pin, the capability passed to
`gpio_set_drive_capability`, and whether that call returned `ESP_OK`. -/
structure GpioAttempt where
  pin : Nat
  cap : Nat
  ok : Bool
  deriving DecidableEq, Repr

/-- Embeds `HalEsp32::set_gpio_output_capability()`: for each pin of `_driver_gpios` in
order, call `gpio_set_drive_capability(gpio, GPIO_DRIVE_CAP_0)` and log success
or failure; the loop never breaks, so it continues past failing pins.  `setCap`
is the hardware response (`true` for `ESP_OK`). -/
def set_gpio_output_capability (setCap : Nat → Nat → Bool) : List GpioAttempt :=
  _driver_gpios.foldl
    (fun log gpio =>
      log ++ [{ pin := gpio, cap := GPIO_DRIVE_CAP_0,
                ok := setCap gpio GPIO_DRIVE_CAP_0 }])
    []

/-- The sequence of calls `HalEsp32::init()` makes, in source order. -/
def initCalls : List String :=
  ["bsp_cam_osc_init", "bsp_i2c_init", "bsp_io_expander_pi4ioe_init",
   "setChargeQcEnable", "delay", "setChargeEnable", "bsp_i2c_scan", "delay",
   "bsp_codec_init", "imu_init", "ina226_begin_configure_calibrate",
   "rx8130_begin_initBat", "clearRtcIrq", "update_system_time", "bsp_reset_tp",
   "bsp_display_start_with_config", "lv_display_set_rotation",
   "bsp_display_backlight_on", "lv_indev_create_and_configure",
   "bsp_usb_host_start", "hid_init", "rs485_init",
   "set_gpio_output_capability", "bsp_display_unlock"]

/-- Folding an append-one-per-element body is a `map`. -/
theorem foldl_append_singleton {α β : Type} (f : α → β) (l : List α) (acc : List β) :
    l.foldl (fun log x => log ++ [f x]) acc = acc ++ l.map f := by
  induction l generalizing acc with
  | nil => simp
  | cons x rest ih => simp [ih]

/-- C7: `set_gpio_output_capability` visits all 24 pins of `_driver_gpios` in
order exactly once, attempts `GPIO_DRIVE_CAP_0` on each, records per-pin success
without aborting on failure, and `init` invokes it exactly once, immediately
before the final `bsp_display_unlock`. -/
theorem set_gpio_output_capability_spec (setCap : Nat → Nat → Bool) :
    (set_gpio_output_capability setCap).map GpioAttempt.pin = _driver_gpios ∧
    _driver_gpios.length = 24 ∧
    (set_gpio_output_capability setCap).length = 24 ∧
    (∀ a ∈ set_gpio_output_capability setCap,
      a.cap = GPIO_DRIVE_CAP_0 ∧ a.ok = setCap a.pin GPIO_DRIVE_CAP_0) ∧
    initCalls.count "set_gpio_output_capability" = 1 ∧
    initCalls.indexOf "set_gpio_output_capability" + 2 = initCalls.length := by
  have hmap : set_gpio_output_capability setCap =
      _driver_gpios.map (fun gpio =>
        { pin := gpio, cap := GPIO_DRIVE_CAP_0,
          ok := setCap gpio GPIO_DRIVE_CAP_0 }) := by
    rw [set_gpio_output_capability, foldl_append_singleton]
    rfl
  refine ⟨?_, ?_, ?_, ?_, ?_, ?_⟩
  · rw [hmap, List.map_map]
    rfl
  · decide
  · rw [hmap, List.length_map]
    decide
  · intro a ha
    rw [hmap] at ha
    obtain ⟨gpio, _, rfl⟩ := List.mem_map.mp ha
    exact ⟨rfl, rfl⟩
  · decide
  · decide

/-- Witness for C7 at a concrete input: with a response that fails on pin 8 and
succeeds elsewhere, all 24 pins are still attempted in order. -/
theorem set_gpio_output_capability_spec_witness :
    (set_gpio_output_capability (fun gpio _ => !(gpio == 8))).map GpioAttempt.pin =
      _driver_gpios ∧
    (set_gpio_output_capability (fun gpio _ => !(gpio == 8))).length = 24 ∧
    ((⟨0, GPIO_DRIVE_CAP_0, true⟩ : GpioAttempt).cap = GPIO_DRIVE_CAP_0 ∧
      (⟨0, GPIO_DRIVE_CAP_0, true⟩ : GpioAttempt).ok =
        (fun gpio _ => !(gpio == 8)) 0 GPIO_DRIVE_CAP_0) :=
  ⟨(set_gpio_output_capability_spec (fun gpio _ => !(gpio == 8))).1,
   (set_gpio_output_capability_spec (fun gpio _ => !(gpio == 8))).2.2.1,
   (set_gpio_output_capability_spec (fun gpio _ => !(gpio == 8))).2.2.2.1
     ⟨0, GPIO_DRIVE_CAP_0, true⟩ (by decide)⟩

/-! ### The LVGL touchpad read callback `lvgl_read_cb` -/

/-- Embeds `lv_indev_state_t`: `LV_INDEV_STATE_REL` / `LV_INDEV_STATE_PR`. -/
inductive IndevState where
  | released
  | pressed
  deriving DecidableEq, Repr

/-- The fields of `lv_indev_data_t` the callback writes: `state` and `point`. -/
structure IndevData where
  state : IndevState
  point : Nat × Nat
  deriving DecidableEq, Repr

/-- Embeds `lvgl_read_cb(indev, data)`.  `handleValid` is `_lcd_touch_handle != NULL`;
`touch` is the controller's report after `esp_lcd_touch_read_data`: `none` when
`esp_lcd_touch_get_coordinates` returns false, otherwise the first coordinate
pair `(touch_x[0], touch_y[0])`.  `data` is the callback's in/out record. -/
def lvgl_read_cb (handleValid : Bool) (touch : Option (Nat × Nat))
    (data : IndevData) : IndevData :=
  if handleValid = false then
    { data with state := IndevState.released }
  else
    match touch with
    | none => { data with state := IndevState.released }
    | some xy => { state := IndevState.pressed, point := xy }

/-- C9: when the touch handle is null or no touch is reported, the callback
reports `released` and leaves the point unchanged; otherwise it reports
`pressed` with the first reported coordinate pair. -/
theorem lvgl_read_cb_spec (handleValid : Bool) (touch : Option (Nat × Nat))
    (data : IndevData) :
    (handleValid = false ∨ touch = none →
      (lvgl_read_cb handleValid touch data).state = IndevState.released ∧
      (lvgl_read_cb handleValid touch data).point = data.point) ∧
    (∀ xy : Nat × Nat, handleValid = true → touch = some xy →
      (lvgl_read_cb handleValid touch data).state = IndevState.pressed ∧
      (lvgl_read_cb handleValid touch data).point = xy) := by
  constructor
  · intro h
    cases handleValid with
    | false => exact ⟨rfl, rfl⟩
    | true =>
      rcases h with h | h
      · cases h
      · subst h
        exact ⟨rfl, rfl⟩
  · intro xy hv ht
    subst hv
    subst ht
    exact ⟨rfl, rfl⟩

/-- Witness for C9 at concrete inputs: a null handle leaves the point of a
released report unchanged, and a valid touch at `(120, 340)` is reported
pressed at `(120, 340)`. -/
theorem lvgl_read_cb_spec_witness :
    ((lvgl_read_cb false (some (5, 6)) ⟨IndevState.released, (1, 2)⟩).state =
        IndevState.released ∧
      (lvgl_read_cb false (some (5, 6)) ⟨IndevState.released, (1, 2)⟩).point =
        (1, 2)) ∧
    ((lvgl_read_cb true (some (120, 340)) ⟨IndevState.released, (1, 2)⟩).state =
        IndevState.pressed ∧
      (lvgl_read_cb true (some (120, 340)) ⟨IndevState.released, (1, 2)⟩).point =
        (120, 340)) :=
  ⟨(lvgl_read_cb_spec false (some (5, 6)) ⟨IndevState.released, (1, 2)⟩).1
      (Or.inl rfl),
   (lvgl_read_cb_spec true (some (120, 340)) ⟨IndevState.released, (1, 2)⟩).2
      (120, 340) rfl rfl⟩

end Tab5Hal

namespace Gc2145Kconfig

/-!
Embedding of `components/esp_cam_sensor/sensors/gc2145/Kconfig.gc2145`.

The fragment is pure build-time configuration data: boolean options with
defaults, two `choice` blocks with default selections, and two derived `int`
configs whose value is determined by the selected choice symbol.  Each Kconfig
symbol is embedded as data; the `int` configs become functions from the
selected choice symbol to the default index they would take.
-/

/-- A Kconfig `bool`/`menuconfig` option: its symbol and its `default`. -/
structure KconfigBool where
  symbol : String
  defaultVal : Bool
  deriving DecidableEq, Repr

/-- Embeds `menuconfig CAMERA_GC2145` — `default n`. -/
def CAMERA_GC2145 : KconfigBool :=
  { symbol := "CAMERA_GC2145", defaultVal := false }

/-- Embeds `menuconfig CAMERA_GC2145_AUTO_DETECT` (inside `if CAMERA_GC2145`) —
`default y`. -/
def CAMERA_GC2145_AUTO_DETECT : KconfigBool :=
  { symbol := "CAMERA_GC2145_AUTO_DETECT", defaultVal := true }

/-- Embeds `config CAMERA_GC2145_AUTO_DETECT_MIPI_INTERFACE_SENSOR` — `default y`. -/
def CAMERA_GC2145_AUTO_DETECT_MIPI_INTERFACE_SENSOR : KconfigBool :=
  { symbol := "CAMERA_GC2145_AUTO_DETECT_MIPI_INTERFACE_SENSOR", defaultVal := true }

/-- Embeds `config CAMERA_GC2145_AUTO_DETECT_DVP_INTERFACE_SENSOR` — `default n`. -/
def CAMERA_GC2145_AUTO_DETECT_DVP_INTERFACE_SENSOR : KconfigBool :=
  { symbol := "CAMERA_GC2145_AUTO_DETECT_DVP_INTERFACE_SENSOR", defaultVal := false }

/-- A Kconfig `choice` block: its symbols and the `default` selection. -/
structure KconfigChoice where
  choices : List String
  defaultChoice : String
  deriving DecidableEq, Repr

/-- Embeds `choice CAMERA_GC2145_MIPI_DEFAULT_FMT`. -/
def CAMERA_GC2145_MIPI_DEFAULT_FMT : KconfigChoice :=
  { choices := ["CAMERA_GC2145_MIPI_RGB565_1600x1200_7FPS",
                "CAMERA_GC2145_MIPI_RGB565_800x600_30FPS"]
    defaultChoice := "CAMERA_GC2145_MIPI_RGB565_800x600_30FPS" }

/-- Embeds `choice CAMERA_GC2145_DVP_DEFAULT_FMT`. -/
def CAMERA_GC2145_DVP_DEFAULT_FMT : KconfigChoice :=
  { choices := ["CAMERA_GC2145_DVP_YUV422_640x480_15FPS",
                "CAMERA_GC2145_DVP_YUV422_1600x1200_13FPS",
                "CAMERA_GC2145_DVP_YUV422_800x600_20FPS"]
    defaultChoice := "CAMERA_GC2145_DVP_YUV422_640x480_15FPS" }

/-- Embeds `config CAMERA_GC2145_MIPI_IF_FORMAT_INDEX_DAFAULT` (typo as in source):
`default 0 if ..._1600x1200_7FPS`, `default 1 if ..._800x600_30FPS`. -/
def CAMERA_GC2145_MIPI_IF_FORMAT_INDEX_DAFAULT (selected : String) : Option Nat :=
  if selected = "CAMERA_GC2145_MIPI_RGB565_1600x1200_7FPS" then some 0
  else if selected = "CAMERA_GC2145_MIPI_RGB565_800x600_30FPS" then some 1
  else none

/-- Embeds `config CAMERA_GC2145_DVP_IF_FORMAT_INDEX_DAFAULT` (typo as in source):
`default 2 / 3 / 4` for the three DVP choice symbols. -/
def CAMERA_GC2145_DVP_IF_FORMAT_INDEX_DAFAULT (selected : String) : Option Nat :=
  if selected = "CAMERA_GC2145_DVP_YUV422_640x480_15FPS" then some 2
  else if selected = "CAMERA_GC2145_DVP_YUV422_1600x1200_13FPS" then some 3
  else if selected = "CAMERA_GC2145_DVP_YUV422_800x600_20FPS" then some 4
  else none

/-- C8: GC2145 support defaults to disabled; with it enabled, auto-detection
defaults to enabled, for the MIPI interface enabled and for the DVP interface
disabled; the default MIPI format is RGB565 800x600 30fps with default format
index 1; the default DVP format is YUV422 640x480 15fps with default format
index 2. -/
theorem gc2145_kconfig_defaults :
    CAMERA_GC2145.defaultVal = false ∧
    CAMERA_GC2145_AUTO_DETECT.defaultVal = true ∧
    CAMERA_GC2145_AUTO_DETECT_MIPI_INTERFACE_SENSOR.defaultVal = true ∧
    CAMERA_GC2145_AUTO_DETECT_DVP_INTERFACE_SENSOR.defaultVal = false ∧
    CAMERA_GC2145_MIPI_DEFAULT_FMT.defaultChoice =
      "CAMERA_GC2145_MIPI_RGB565_800x600_30FPS" ∧
    CAMERA_GC2145_MIPI_DEFAULT_FMT.defaultChoice ∈
      CAMERA_GC2145_MIPI_DEFAULT_FMT.choices ∧
    CAMERA_GC2145_MIPI_IF_FORMAT_INDEX_DAFAULT
      CAMERA_GC2145_MIPI_DEFAULT_FMT.defaultChoice = some 1 ∧
    CAMERA_GC2145_DVP_DEFAULT_FMT.defaultChoice =
      "CAMERA_GC2145_DVP_YUV422_640x480_15FPS" ∧
    CAMERA_GC2145_DVP_DEFAULT_FMT.defaultChoice ∈
      CAMERA_GC2145_DVP_DEFAULT_FMT.choices ∧
    CAMERA_GC2145_DVP_IF_FORMAT_INDEX_DAFAULT
      CAMERA_GC2145_DVP_DEFAULT_FMT.defaultChoice = some 2 := by
  refine ⟨rfl, rfl, rfl, rfl, rfl, ?_, by decide, rfl, ?_, by decide⟩
  · decide
  · decide

end Gc2145Kconfig

